import Mathlib

/-
Verification of the drode backend (src-tauri): the external-process
orchestration layer (terminal command engine, assistant CLI invoker) and
the OAuth authorization-flow manager.

The shallow embedding translates the Rust source into Lean:
  - the two shared mutable maps (the process registry
    `AppState.terminal_pids : Mutex<HashMap<String, u32>>` in state.rs and
    the pending-flow map `PENDING_FLOWS : Mutex<HashMap<String, PendingFlow>>`
    in commands/oauth.rs) are modelled as association lists with unique keys;
    HashMap insert replaces the existing binding and remove deletes it;
  - each command handler becomes a pure function from its inputs and the
    relevant shared state to the updated state plus a trace of the side
    effects it performs (signals sent, sleeps, events emitted);
  - the detached reader threads become functions from the list of
    line-read results they would observe to the list of events they emit.
-/

namespace Drode

/-! ## Association-list model of the locked HashMaps -/

section AssocMap

variable {α : Type}

/-- Lookup of a key in an association list, mirroring HashMap get. -/
def lookupKey : List (String × α) → String → Option α
  | [], _ => none
  | p :: rest, key => if p.1 = key then some p.2 else lookupKey rest key

/-- Removal of a key, mirroring HashMap remove: every binding of the key
is deleted (on the unique-key lists produced by insertKey there is at most
one). -/
def eraseKey : List (String × α) → String → List (String × α)
  | [], _ => []
  | p :: rest, key => if p.1 = key then eraseKey rest key else p :: eraseKey rest key

/-- Insertion, mirroring HashMap insert: the new binding replaces any
existing binding of the same key. -/
def insertKey (l : List (String × α)) (key : String) (v : α) : List (String × α) :=
  (key, v) :: eraseKey l key

end AssocMap

/-! ## Shared result type (state.rs, struct OperationResult) -/

/-- Result structure returned to the UI by every command
(state.rs lines 180 to 187). -/
structure OperationResult where
  success : Bool
  error : Option String
  content : Option String
deriving DecidableEq, Repr

/-! ## Process registry and terminal engine (commands/terminal.rs) -/

/-- The process registry: terminal_id to OS pid
(state.rs, field terminal_pids : Mutex of HashMap String u32). -/
abbrev Registry := List (String × Nat)

/-- Event type tag carried in the json payloads emitted to the UI. -/
inductive EventType
  | stdout
  | stderr
  | exit
  | done
deriving DecidableEq, Repr

/-- One terminal-output event as emitted on the terminal-output channel:
a json object with terminalId, type, and data (for stdout and stderr)
or code (for exit). -/
structure TerminalEvent where
  terminalId : String
  type : EventType
  data : Option String
  code : Option Int
deriving DecidableEq, Repr

/-- Constructor for a stdout line event (terminal.rs lines 80 to 84). -/
def termStdout (tid text : String) : TerminalEvent :=
  { terminalId := tid, type := .stdout, data := some text, code := none }

/-- Constructor for a stderr line event (terminal.rs lines 101 to 105). -/
def termStderr (tid text : String) : TerminalEvent :=
  { terminalId := tid, type := .stderr, data := some text, code := none }

/-- Constructor for an exit event (terminal.rs lines 119 to 123). -/
def termExit (tid : String) (code : Int) : TerminalEvent :=
  { terminalId := tid, type := .exit, data := none, code := some code }

/-- POSIX signals used by the kill path. -/
inductive UnixSignal
  | sigterm
  | sigkill
deriving DecidableEq, Repr

/-- One observable side effect performed by kill_terminal_process, in
program order: a libc kill call on a target (negative pid addresses the
process group), a sleep, or an event emission. -/
inductive KillAction
  | signal (target : Int) (sig : UnixSignal)
  | sleepMs (ms : Nat)
  | emit (e : TerminalEvent)
deriving DecidableEq, Repr

/-- Result of a kill request: the updated registry, the ordered trace of
side effects, and the OperationResult returned to the caller. -/
structure KillResult where
  registry : Registry
  actions : List KillAction
  result : OperationResult
deriving DecidableEq, Repr

/-- Translation of kill_terminal_process (terminal.rs lines 140 to 197,
unix path). The source removes terminal_id from the map (remove returns
the old binding, modelled as lookupKey plus eraseKey); when a pid was
bound it sends SIGTERM to the process group -pid, sleeps 100 ms, sends
SIGKILL to -pid unconditionally, emits a synthetic exit event with code
-1 and returns success; when no pid was bound it performs nothing and
returns the Process not found error. -/
def kill_terminal_process (reg : Registry) (terminal_id : String) : KillResult :=
  match lookupKey reg terminal_id with
  | some pid =>
      { registry := eraseKey reg terminal_id
        actions := [.signal (-(pid : Int)) .sigterm, .sleepMs 100,
                    .signal (-(pid : Int)) .sigkill,
                    .emit (termExit terminal_id (-1))]
        result := { success := true, error := none, content := none } }
  | none =>
      { registry := eraseKey reg terminal_id
        actions := []
        result := { success := false, error := some "Process not found", content := none } }

/-- Translation of the registry insertion performed by
run_terminal_command after a successful spawn (terminal.rs lines 66 to
69): pids.insert(terminal_id, pid). -/
def spawnRegister (reg : Registry) (terminal_id : String) (pid : Nat) : Registry :=
  insertKey reg terminal_id pid

/-- Translation of the exit-waiter thread (terminal.rs lines 116 to 124):
it waits for the child, computes the exit code
(status.ok().and_then(code).unwrap_or(-1), modelled as an Option Int) and
emits one exit event. The closure captures only the app handle and the
terminal id: it performs no operation on the registry, so the registry
component of its result is the input registry unchanged. -/
def exitWaiter (reg : Registry) (terminal_id : String) (status : Option Int) :
    Registry × List TerminalEvent :=
  (reg, [termExit terminal_id (status.getD (-1))])

/-! ## Stream reader threads (terminal.rs and claude.rs) -/

/-- One result of BufReader lines next: a decoded line or a read error.
End-of-input is the end of the list. -/
inductive LineRead
  | ok (text : String)
  | err
deriving DecidableEq, Repr

/-- The sequence of lines a reader loop processes: all lines up to the
first read error (the loop breaks there) or up to end-of-input. -/
def okLines : List LineRead → List String
  | [] => []
  | .ok text :: rest => text :: okLines rest
  | .err :: _ => []

/-- Translation of the stdout reader thread of run_terminal_command
(terminal.rs lines 72 to 90): it emits one stdout event per decoded
line, breaks on the first read error, and ends silently: nothing is
emitted after the loop ends. -/
def terminal_stdout_reader (tid : String) : List LineRead → List TerminalEvent
  | [] => []
  | .ok text :: rest => termStdout tid text :: terminal_stdout_reader tid rest
  | .err :: _ => []

/-- Translation of the stderr reader thread of run_terminal_command
(terminal.rs lines 92 to 111): same loop, tagged stderr. -/
def terminal_stderr_reader (tid : String) : List LineRead → List TerminalEvent
  | [] => []
  | .ok text :: rest => termStderr tid text :: terminal_stderr_reader tid rest
  | .err :: _ => []

/-- One claude-output event: a json object with type and data
(claude.rs lines 121 to 133). -/
structure ClaudeEvent where
  type : EventType
  data : String
deriving DecidableEq, Repr

/-- The reader loop of the claude stdout thread (claude.rs lines 117 to
128): one stdout event per line, break on read error. -/
def claude_stdout_loop : List LineRead → List ClaudeEvent
  | [] => []
  | .ok text :: rest => { type := .stdout, data := text } :: claude_stdout_loop rest
  | .err :: _ => []

/-- Translation of the stdout reader thread of send_to_claude
(claude.rs lines 114 to 135): after the loop ends (end-of-input or read
error) it emits exactly one done event. -/
def claude_stdout_reader (lines : List LineRead) : List ClaudeEvent :=
  claude_stdout_loop lines ++ [{ type := .done, data := "" }]

/-- Translation of the stderr reader thread of send_to_claude
(claude.rs lines 137 to 154): loop only, no trailing event. -/
def claude_stderr_reader : List LineRead → List ClaudeEvent
  | [] => []
  | .ok text :: rest => { type := .stderr, data := text } :: claude_stderr_reader rest
  | .err :: _ => []


/-! ## SHA-256 (FIPS 180-4), as computed by the sha2 crate

The OAuth PKCE challenge is the SHA-256 digest of the verifier. The sha2
crate is an external dependency, so the digest function is embedded here
from the SHA-256 standard it implements; the witness below checks the
embedding against a published test vector. Words are Nat reduced mod
2 to the 32. -/

/-- Truncation to a 32-bit word. -/
def w32 (n : Nat) : Nat := n % 4294967296

/-- Right rotation of a 32-bit word by n bits. -/
def rotr (n x : Nat) : Nat := x / 2 ^ n + x % 2 ^ n * 2 ^ (32 - n)

/-- Bitwise complement of a 32-bit word. -/
def not32 (x : Nat) : Nat := 4294967295 - x

def shaCh (x y z : Nat) : Nat := (x &&& y) ^^^ (not32 x &&& z)

def shaMaj (x y z : Nat) : Nat := (x &&& y) ^^^ (x &&& z) ^^^ (y &&& z)

def bigSigma0 (x : Nat) : Nat := rotr 2 x ^^^ rotr 13 x ^^^ rotr 22 x

def bigSigma1 (x : Nat) : Nat := rotr 6 x ^^^ rotr 11 x ^^^ rotr 25 x

def smallSigma0 (x : Nat) : Nat := rotr 7 x ^^^ rotr 18 x ^^^ (x >>> 3)

def smallSigma1 (x : Nat) : Nat := rotr 17 x ^^^ rotr 19 x ^^^ (x >>> 10)

/-- The 64 SHA-256 round constants. -/
def shaK : List Nat :=
  [1116352408, 1899447441, 3049323471, 3921009573, 961987163, 1508970993,
   2453635748, 2870763221, 3624381080, 310598401, 607225278, 1426881987,
   1925078388, 2162078206, 2614888103, 3248222580, 3835390401, 4022224774,
   264347078, 604807628, 770255983, 1249150122, 1555081692, 1996064986,
   2554220882, 2821834349, 2952996808, 3210313671, 3336571891, 3584528711,
   113926993, 338241895, 666307205, 773529912, 1294757372, 1396182291,
   1695183700, 1986661051, 2177026350, 2456956037, 2730485921, 2820302411,
   3259730800, 3345764771, 3516065817, 3600352804, 4094571909, 275423344,
   430227734, 506948616, 659060556, 883997877, 958139571, 1322822218,
   1537002063, 1747873779, 1955562222, 2024104815, 2227730452, 2361852424,
   2428436474, 2756734187, 3204031479, 3329325298]

/-- Big-endian 8-byte encoding of the bit length, appended by padding. -/
def be64 (n : Nat) : List Nat :=
  [n / 2 ^ 56 % 256, n / 2 ^ 48 % 256, n / 2 ^ 40 % 256, n / 2 ^ 32 % 256,
   n / 2 ^ 24 % 256, n / 2 ^ 16 % 256, n / 2 ^ 8 % 256, n % 256]

/-- Big-endian 4-byte encoding of a 32-bit word. -/
def be32 (n : Nat) : List Nat :=
  [n / 2 ^ 24 % 256, n / 2 ^ 16 % 256, n / 2 ^ 8 % 256, n % 256]

/-- SHA-256 padding: append the byte 0x80, zero bytes up to 56 mod 64,
then the message bit length as 8 big-endian bytes. -/
def padMessage (msg : List Nat) : List Nat :=
  msg ++ [128] ++ List.replicate ((119 - msg.length % 64) % 64) 0 ++ be64 (msg.length * 8)

/-- Big-endian packing of bytes into 32-bit words. -/
def toWords : List Nat → List Nat
  | a :: b :: c :: d :: rest => (((a * 256 + b) * 256 + c) * 256 + d) :: toWords rest
  | _ => []

/-- Message-schedule extension: appends the given number of words, each
computed from the words 2, 7, 15 and 16 positions back. -/
def extendWords (ws : List Nat) : Nat → List Nat
  | 0 => ws
  | n + 1 =>
    let i := ws.length
    extendWords
      (ws ++ [w32 (smallSigma1 (ws.getD (i - 2) 0) + ws.getD (i - 7) 0
                    + smallSigma0 (ws.getD (i - 15) 0) + ws.getD (i - 16) 0)]) n

/-- The eight 32-bit working variables of the compression function. -/
structure Sha8 where
  a : Nat
  b : Nat
  c : Nat
  d : Nat
  e : Nat
  f : Nat
  g : Nat
  h : Nat
deriving DecidableEq, Repr

/-- The initial SHA-256 hash value. -/
def shaInit : Sha8 :=
  ⟨1779033703, 3144134277, 1013904242, 2773480762,
   1359893119, 2600822924, 528734635, 1541459225⟩

/-- The 64 compression rounds, consuming pairs of round constant and
schedule word. -/
def shaRounds (st : Sha8) : List (Nat × Nat) → Sha8
  | [] => st
  | (k, w) :: rest =>
    let t1 := w32 (st.h + bigSigma1 st.e + shaCh st.e st.f st.g + k + w)
    let t2 := w32 (bigSigma0 st.a + shaMaj st.a st.b st.c)
    shaRounds ⟨w32 (t1 + t2), st.a, st.b, st.c, w32 (st.d + t1), st.e, st.f, st.g⟩ rest

/-- Compression of one 64-byte block into the running hash. -/
def processBlock (st : Sha8) (block : List Nat) : Sha8 :=
  let r := shaRounds st (shaK.zip (extendWords (toWords block) 48))
  ⟨w32 (st.a + r.a), w32 (st.b + r.b), w32 (st.c + r.c), w32 (st.d + r.d),
   w32 (st.e + r.e), w32 (st.f + r.f), w32 (st.g + r.g), w32 (st.h + r.h)⟩

/-- Splitting into 64-byte blocks, by fuel recursion (each step consumes
at least one byte, so a fuel of the list length is always enough). -/
def chunks64Go : Nat → List Nat → List (List Nat)
  | 0, _ => []
  | _ + 1, [] => []
  | fuel + 1, l => l.take 64 :: chunks64Go fuel (l.drop 64)

/-- Splitting the padded message into 64-byte blocks. -/
def chunks64 (l : List Nat) : List (List Nat) := chunks64Go l.length l

/-- SHA-256 of a byte sequence, as 32 bytes. -/
def sha256 (msg : List Nat) : List Nat :=
  let st := (chunks64 (padMessage msg)).foldl processBlock shaInit
  be32 st.a ++ be32 st.b ++ be32 st.c ++ be32 st.d
    ++ be32 st.e ++ be32 st.f ++ be32 st.g ++ be32 st.h

/-! ## UTF-8, base64url without padding, percent-encoding

These embed the behavior of str as_bytes, the base64 crate engine
URL_SAFE_NO_PAD, and urlencoding encode, the external library functions
the OAuth manager calls. -/

/-- UTF-8 encoding of one scalar value, as the Rust str as_bytes view. -/
def utf8EncodeCharNat (c : Char) : List Nat :=
  let n := c.toNat
  if n < 128 then [n]
  else if n < 2048 then [192 + n / 64, 128 + n % 64]
  else if n < 65536 then [224 + n / 4096, 128 + n / 64 % 64, 128 + n % 64]
  else [240 + n / 262144, 128 + n / 4096 % 64, 128 + n / 64 % 64, 128 + n % 64]

/-- UTF-8 bytes of a string. -/
def utf8Bytes (s : String) : List Nat := s.data.flatMap utf8EncodeCharNat

/-- The base64url alphabet. -/
def b64Alphabet : List Char :=
  "ABCDEFGHIJKLMNOPQRSTUVWXYZabcdefghijklmnopqrstuvwxyz0123456789-_".data

/-- Character for a 6-bit group. -/
def b64c (n : Nat) : Char := b64Alphabet.getD n 'A'

/-- Base64 encoding without padding: 3-byte groups to 4 characters, a
final 1-byte group to 2 characters, a final 2-byte group to 3. -/
def b64Chars : List Nat → List Char
  | [] => []
  | [a] => [b64c (a / 4), b64c (a % 4 * 16)]
  | [a, b] => [b64c (a / 4), b64c (a % 4 * 16 + b / 16), b64c (b % 16 * 4)]
  | a :: b :: c :: rest =>
      b64c (a / 4) :: b64c (a % 4 * 16 + b / 16) :: b64c (b % 16 * 4 + c / 64)
        :: b64c (c % 64) :: b64Chars rest

/-- The base64 crate engine URL_SAFE_NO_PAD encode. -/
def base64UrlNoPad (l : List Nat) : String := String.mk (b64Chars l)

/-- Percent-encoding unreserved set of urlencoding encode: ASCII
alphanumerics and minus, dot, underscore, tilde. -/
def isUnreserved (b : Nat) : Bool :=
  decide ((65 ≤ b ∧ b ≤ 90) ∨ (97 ≤ b ∧ b ≤ 122) ∨ (48 ≤ b ∧ b ≤ 57)
    ∨ b = 45 ∨ b = 46 ∨ b = 95 ∨ b = 126)

/-- Uppercase hexadecimal digit. -/
def percentHexDigit (n : Nat) : Char := "0123456789ABCDEF".data.getD n '0'

/-- Percent-encoding of one byte. -/
def encodeByte (b : Nat) : List Char :=
  if isUnreserved b then [Char.ofNat b]
  else ['%', percentHexDigit (b / 16), percentHexDigit (b % 16)]

/-- The urlencoding crate encode function over the UTF-8 bytes. -/
def urlencode (s : String) : String := String.mk ((utf8Bytes s).flatMap encodeByte)

/-! ## OAuth flow manager (commands/oauth.rs, db/oauth.rs) -/

/-- Static provider configuration (oauth.rs lines 9 to 14). -/
structure ProviderConfig where
  auth_url : String
  token_url : String
  scopes : String
  client_id_env : String
deriving DecidableEq, Repr

/-- Translation of get_provider_config (oauth.rs lines 16 to 38). -/
def get_provider_config : String → Option ProviderConfig
  | "github" => some
      { auth_url := "https://github.com/login/oauth/authorize"
        token_url := "https://github.com/login/oauth/access_token"
        scopes := "repo,user"
        client_id_env := "DRODE_GITHUB_CLIENT_ID" }
  | "supabase" => some
      { auth_url := "https://api.supabase.com/v1/oauth/authorize"
        token_url := "https://api.supabase.com/v1/oauth/token"
        scopes := "all"
        client_id_env := "DRODE_SUPABASE_CLIENT_ID" }
  | "vercel" => some
      { auth_url := "https://vercel.com/integrations/oauth/authorize"
        token_url := "https://api.vercel.com/v2/oauth/access_token"
        scopes := ""
        client_id_env := "DRODE_VERCEL_CLIENT_ID" }
  | _ => none

/-- One pending OAuth flow (oauth.rs lines 45 to 50). -/
structure PendingFlow where
  provider : String
  state : String
  code_verifier : String
deriving DecidableEq, Repr

/-- The PENDING_FLOWS map, keyed by the state token. -/
abbrev Flows := List (String × PendingFlow)

/-- Translation of generate_pkce (oauth.rs lines 61 to 70): the verifier
is the random 64-character string (supplied as the argument, since
randomness is external); the challenge is the base64url no-pad encoding
of the SHA-256 digest of the verifier bytes. -/
def generate_pkce (verifier : String) : String × String :=
  (verifier, base64UrlNoPad (sha256 (utf8Bytes verifier)))

/-- The fixed loopback redirect URI (oauth.rs lines 143 and 258). -/
def redirect_uri : String := "http://localhost:17391/callback"

/-- Translation of the authorize-URL format string
(oauth.rs lines 144 to 152): each interpolated value goes through
urlencoding encode. -/
def buildAuthUrl (config : ProviderConfig) (client_id state_param challenge : String) :
    String :=
  config.auth_url ++ "?client_id=" ++ urlencode client_id
    ++ "&redirect_uri=" ++ urlencode redirect_uri
    ++ "&scope=" ++ urlencode config.scopes
    ++ "&state=" ++ urlencode state_param
    ++ "&response_type=code&code_challenge=" ++ urlencode challenge
    ++ "&code_challenge_method=S256"

/-- Observable actions dispatched by a successful oauth_start: the
background callback listener spawn and the browser open. -/
inductive StartAction
  | startListener
  | openBrowser (url : String)
deriving DecidableEq, Repr

/-- Result of oauth_start: the OperationResult returned to the caller,
the updated pending-flow map, and the dispatched actions in order. -/
structure StartResult where
  result : OperationResult
  flows : Flows
  actions : List StartAction
deriving DecidableEq, Repr

/-- Translation of oauth_start (oauth.rs lines 109 to 169). The random
state parameter and PKCE verifier are inputs, since randomness is
external. Unknown provider and missing client-id environment variable
both return synchronously with success false and touch nothing; on
acceptance the flow is stored under the state token, the listener task
is spawned and the browser is opened on the authorize URL. -/
def oauth_start (env : String → Option String) (flows : Flows) (provider : String)
    (state_param verifier : String) : StartResult :=
  match get_provider_config provider with
  | none =>
      { result := { success := false
                    error := some ("Unknown provider: " ++ provider)
                    content := none }
        flows := flows
        actions := [] }
  | some config =>
    match env config.client_id_env with
    | none =>
        { result := { success := false
                      error := some ("Set " ++ config.client_id_env
                        ++ " environment variable with your OAuth client ID")
                      content := none }
          flows := flows
          actions := [] }
    | some client_id =>
        let pkce := generate_pkce verifier
        { result := { success := true, error := none, content := none }
          flows := insertKey flows state_param
            { provider := provider, state := state_param, code_verifier := pkce.1 }
          actions := [.startListener,
                      .openBrowser (buildAuthUrl config client_id state_param pkce.2)] }

/-- Outcome of handling the single callback request: either the token
exchange is invoked with the provider and verifier taken from the
consumed pending flow (the Ok branch of the spawn_blocking closure,
dispatched to exchange_code at oauth.rs line 226), or the flow fails and
an oauth-error notification with the given message is emitted (the Err
branch, oauth.rs lines 228 to 233). -/
inductive CallbackOutcome
  | exchange (provider code code_verifier : String)
  | failure (provider error : String)
deriving DecidableEq, Repr

/-- Translation of the redirect handling inside start_callback_server
(oauth.rs lines 208 to 221): the flow matching the received state is
looked up and removed from PENDING_FLOWS; a match dispatches the token
exchange with the flow data, no match is an invalid callback. -/
def handleRedirect (flows : Flows) (provider : String) (code state_param : String) :
    Flows × CallbackOutcome :=
  match lookupKey flows state_param with
  | some flow => (eraseKey flows state_param, .exchange flow.provider code flow.code_verifier)
  | none => (eraseKey flows state_param, .failure provider "Invalid OAuth state parameter")

/-- Stored OAuth token record (db/oauth.rs lines 4 to 13). -/
structure OAuthToken where
  provider : String
  access_token : String
  refresh_token : Option String
  expires_at : Option Int
  scope : Option String
  account_info_json : Option String
  updated_at : Int
deriving DecidableEq, Repr

/-- The oauth_tokens table: provider is the primary key
(db/schema.rs lines 118 to 126). -/
abbrev TokenDb := List (String × OAuthToken)

/-- Translation of db::oauth::store_token (db/oauth.rs lines 15 to 30):
INSERT OR REPLACE keyed by provider. -/
def store_token (db : TokenDb) (token : OAuthToken) : TokenDb :=
  insertKey db token.provider token

/-- Translation of the token-exchange form body (oauth.rs lines 255 to
263): grant type, code, redirect URI, client id and the PKCE verifier;
the client secret is added only when its environment variable is set
and non-empty. -/
def exchangeForm (client_id code code_verifier secret : String) :
    List (String × String) :=
  [("grant_type", "authorization_code"), ("code", code),
   ("redirect_uri", redirect_uri), ("client_id", client_id),
   ("code_verifier", code_verifier)]
    ++ (if secret = "" then [] else [("client_secret", secret)])

/-- Parsed fields of the token-endpoint response body, each the result
of the corresponding as_str or as_i64 projection (oauth.rs lines 284 to
294). -/
structure TokenResponse where
  access_token : Option String
  refresh_token : Option String
  expires_in : Option Int
  scope : Option String
deriving DecidableEq, Repr

/-- Notification emitted at the end of a flow: oauth-error with a
message, or oauth-complete with the account info
(oauth.rs lines 277, 286, 315, 321, 327). -/
inductive OAuthNotification
  | failure (provider error : String)
  | success (provider : String) (account_info : Option String)
deriving DecidableEq, Repr

/-- Translation of the response handling of exchange_code after a
successful HTTP call and body parse (oauth.rs lines 284 to 324):
access_token defaults to the empty string when absent; an empty token
emits the no-access-token failure (the source formats the body into the
message, abbreviated here) and stores nothing; otherwise the record is
built (expires_at from now plus expires_in, account info fetched
best-effort and serialized) and stored by provider key, and the success
notification carries the account info. -/
def exchange_code_response (db : TokenDb) (provider : String) (body : TokenResponse)
    (now nowMs : Int) (account_info : Option String) : TokenDb × OAuthNotification :=
  let access_token := body.access_token.getD ""
  if access_token = "" then
    (db, .failure provider "No access_token in response")
  else
    (store_token db
      { provider := provider
        access_token := access_token
        refresh_token := body.refresh_token
        expires_at := body.expires_in.map (fun e => now + e)
        scope := body.scope
        account_info_json := account_info
        updated_at := nowMs },
     .success provider account_info)

/-- One row of the connection-status answer (oauth.rs lines 72 to 77).
The type of parsed account metadata is a parameter. -/
structure OAuthStatus (V : Type) where
  connected : Bool
  provider : String
  account_info : Option V
deriving DecidableEq, Repr

/-- Translation of oauth_get_status (oauth.rs lines 79 to 107): one
entry per provider in the fixed array order; a row is connected exactly
on the Ok Some branch of get_token, with the account info parsed from
the stored json (parse models serde_json from_str ok); every other
branch, including a database error, yields a disconnected row with no
metadata. -/
def statusFor {V E : Type} (get_token : String → Except E (Option OAuthToken))
    (parse : String → Option V) (provider : String) : OAuthStatus V :=
  match get_token provider with
  | .ok (some token) =>
      { connected := true, provider := provider
        account_info := token.account_info_json.bind parse }
  | _ => { connected := false, provider := provider, account_info := none }

def oauth_get_status {V E : Type} (get_token : String → Except E (Option OAuthToken))
    (parse : String → Option V) : List (OAuthStatus V) :=
  ["github", "supabase", "vercel"].map (statusFor get_token parse)

/-! ## Assistant CLI invoker (commands/claude.rs) -/

/-- Translation of the argument-vector construction of send_to_claude
(claude.rs lines 78 to 96): the base flags; the dangerous flag inserted
at the front only in dangerous mode; resume plus the session id appended
only for a non-empty session id. -/
def buildClaudeArgs (dangerous : Bool) (session_id : Option String) : List String :=
  let args := ["--print", "--output-format", "stream-json", "--verbose"]
  let args := if dangerous then "--dangerously-skip-permissions" :: args else args
  match session_id with
  | some sid => if sid = "" then args else args ++ ["--resume", sid]
  | none => args

/-- Outcome of send_to_claude: a synchronous rejection, or a spawn of
the claude executable with the built argument vector followed by the
message (claude.rs lines 98 to 106). -/
inductive SendOutcome
  | rejected (error : String)
  | spawned (args : List String) (message : String)
deriving DecidableEq, Repr

/-- Translation of send_to_claude up to the spawn (claude.rs lines 51 to
106): reads current_project and dangerous_mode from settings (the
dangerous setting counts only when it is exactly the string true,
default false); a missing project path is the user-facing rejection; the
reader threads that follow a successful spawn are modelled separately. -/
def send_to_claude (settings : String → Option String) (message : String)
    (session_id : Option String) : SendOutcome :=
  match settings "current_project" with
  | none => .rejected "No project path set"
  | some _ =>
      let dangerous := ((settings "dangerous_mode").map (fun v => v == "true")).getD false
      .spawned (buildClaudeArgs dangerous session_id) message

/-! # Theorems

Helper lemmas first, then one theorem (plus witness or counterexample)
per claim. -/

section AssocMapLemmas

variable {α : Type}

theorem lookupKey_eraseKey_self (l : List (String × α)) (k : String) :
    lookupKey (eraseKey l k) k = none := by
  induction l with
  | nil => rfl
  | cons p rest ih =>
    by_cases h : p.1 = k
    · simp [eraseKey, h, ih]
    · simp [eraseKey, lookupKey, h, ih]

theorem lookupKey_eraseKey_ne (l : List (String × α)) (k k2 : String) (h : k2 ≠ k) :
    lookupKey (eraseKey l k) k2 = lookupKey l k2 := by
  induction l with
  | nil => rfl
  | cons p rest ih =>
    have hks : ¬ k = k2 := fun hc => h hc.symm
    by_cases hp : p.1 = k
    · have hne : ¬ p.1 = k2 := fun hc => h (hc ▸ hp)
      simp [eraseKey, lookupKey, hp, hne, hks, ih]
    · by_cases hp2 : p.1 = k2
      · simp [eraseKey, lookupKey, hp, hp2, h, ih]
      · simp [eraseKey, lookupKey, hp, hp2, h, ih]

theorem eraseKey_eq_of_lookup_none (l : List (String × α)) (k : String)
    (h : lookupKey l k = none) : eraseKey l k = l := by
  induction l with
  | nil => rfl
  | cons p rest ih =>
    by_cases hp : p.1 = k
    · simp [lookupKey, hp] at h
    · simp [lookupKey, hp] at h
      simp [eraseKey, hp, ih h]

theorem lookupKey_insertKey_self (l : List (String × α)) (k : String) (v : α) :
    lookupKey (insertKey l k v) k = some v := by
  simp [insertKey, lookupKey]

end AssocMapLemmas

theorem terminal_stdout_reader_eq (tid : String) (lines : List LineRead) :
    terminal_stdout_reader tid lines = (okLines lines).map (termStdout tid) := by
  induction lines with
  | nil => rfl
  | cons l rest ih =>
    cases l with
    | ok text => simp [terminal_stdout_reader, okLines, ih]
    | err => rfl

theorem terminal_stderr_reader_eq (tid : String) (lines : List LineRead) :
    terminal_stderr_reader tid lines = (okLines lines).map (termStderr tid) := by
  induction lines with
  | nil => rfl
  | cons l rest ih =>
    cases l with
    | ok text => simp [terminal_stderr_reader, okLines, ih]
    | err => rfl

theorem claude_stdout_loop_eq (lines : List LineRead) :
    claude_stdout_loop lines
      = (okLines lines).map (fun text => { type := .stdout, data := text : ClaudeEvent }) := by
  induction lines with
  | nil => rfl
  | cons l rest ih =>
    cases l with
    | ok text => simp [claude_stdout_loop, okLines, ih]
    | err => rfl


theorem claude_stderr_reader_eq (lines : List LineRead) :
    claude_stderr_reader lines
      = (okLines lines).map (fun text => { type := .stderr, data := text : ClaudeEvent }) := by
  induction lines with
  | nil => rfl
  | cons l rest ih =>
    cases l with
    | ok text => simp [claude_stderr_reader, okLines, ih]
    | err => rfl

theorem kill_registry_eq (reg : Registry) (tid : String) :
    (kill_terminal_process reg tid).registry = eraseKey reg tid := by
  unfold kill_terminal_process
  cases lookupKey reg tid <;> rfl

/-! ## C1 -/

/-- C1 counterexample: a session spawned into the registry and then
observed to exit naturally by the waiter thread is still present in the
registry; the claim that the mapping is removed on natural exit is false
at this input. The waiter thread of run_terminal_command only emits the
exit event and performs no registry operation. -/
theorem registry_not_cleared_on_natural_exit :
    ¬ lookupKey (exitWaiter (spawnRegister [] "t1" 42) "t1" (some 0)).1 "t1" = none := by
  decide

/-- C1 amended: the session_id to os_pid mapping is removed from the
registry only by an explicit kill request; the waiter thread that
observes a natural exit emits the exit event and leaves the registry
unchanged, so the entry stays until a kill or a replacing spawn. -/
theorem registry_removed_only_on_kill (reg : Registry) (tid : String) (status : Option Int) :
    (kill_terminal_process reg tid).registry = eraseKey reg tid
    ∧ lookupKey (kill_terminal_process reg tid).registry tid = none
    ∧ (exitWaiter reg tid status).1 = reg
    ∧ (exitWaiter reg tid status).2 = [termExit tid (status.getD (-1))] :=
  ⟨kill_registry_eq reg tid,
   (kill_registry_eq reg tid) ▸ lookupKey_eraseKey_self reg tid,
   rfl, rfl⟩

/-! ## C4 -/

/-- C4: killing a registered session sends SIGTERM to the process group
(negative pid), waits the fixed 100 ms grace period, sends SIGKILL to
the same group unconditionally, removes the id from the registry, emits
exactly one synthetic exit event with code -1, and reports success. -/
theorem kill_registered_session (reg : Registry) (tid : String) (pid : Nat)
    (h : lookupKey reg tid = some pid) :
    kill_terminal_process reg tid =
      { registry := eraseKey reg tid
        actions := [.signal (-(pid : Int)) .sigterm, .sleepMs 100,
                    .signal (-(pid : Int)) .sigkill, .emit (termExit tid (-1))]
        result := { success := true, error := none, content := none } }
    ∧ lookupKey (kill_terminal_process reg tid).registry tid = none := by
  have h1 : kill_terminal_process reg tid =
      { registry := eraseKey reg tid
        actions := [.signal (-(pid : Int)) .sigterm, .sleepMs 100,
                    .signal (-(pid : Int)) .sigkill, .emit (termExit tid (-1))]
        result := { success := true, error := none, content := none } } := by
    unfold kill_terminal_process
    rw [h]
  refine ⟨h1, ?_⟩
  rw [h1]
  exact lookupKey_eraseKey_self reg tid

/-- C4 witness at the concrete registry holding session t1 with pid 42. -/
theorem kill_registered_session_witness :
    kill_terminal_process [("t1", 42)] "t1" =
      { registry := eraseKey [("t1", 42)] "t1"
        actions := [.signal (-((42 : Nat) : Int)) .sigterm, .sleepMs 100,
                    .signal (-((42 : Nat) : Int)) .sigkill, .emit (termExit "t1" (-1))]
        result := { success := true, error := none, content := none } }
    ∧ lookupKey (kill_terminal_process [("t1", 42)] "t1").registry "t1" = none :=
  kill_registered_session [("t1", 42)] "t1" 42 (by decide)

/-! ## C7 -/

/-- C7: killing an unknown session id returns the Process not found
error, performs no signal, sleep or event emission, and leaves the
registry, and hence every other session mapping, unchanged. -/
theorem kill_unknown_session (reg : Registry) (tid : String)
    (h : lookupKey reg tid = none) :
    (kill_terminal_process reg tid).result
        = { success := false, error := some "Process not found", content := none }
    ∧ (kill_terminal_process reg tid).actions = []
    ∧ (kill_terminal_process reg tid).registry = reg
    ∧ ∀ k, lookupKey (kill_terminal_process reg tid).registry k = lookupKey reg k := by
  have h1 : kill_terminal_process reg tid =
      { registry := eraseKey reg tid
        actions := []
        result := { success := false, error := some "Process not found", content := none } } := by
    unfold kill_terminal_process
    rw [h]
  have h2 : eraseKey reg tid = reg := eraseKey_eq_of_lookup_none reg tid h
  refine ⟨by rw [h1], by rw [h1], by rw [h1]; exact h2, fun k => by rw [h1]; simp [h2]⟩

/-- C7 witness: killing the absent session missing in a registry that
holds only session other leaves that registry intact. -/
theorem kill_unknown_session_witness :
    (kill_terminal_process [("other", 7)] "missing").result
        = { success := false, error := some "Process not found", content := none }
    ∧ (kill_terminal_process [("other", 7)] "missing").actions = []
    ∧ (kill_terminal_process [("other", 7)] "missing").registry = [("other", 7)]
    ∧ ∀ k, lookupKey (kill_terminal_process [("other", 7)] "missing").registry k
        = lookupKey [("other", 7)] k :=
  kill_unknown_session [("other", 7)] "missing" (by decide)


/-! ## C5 -/

/-- C5 counterexample: the stdout reader of run_terminal_command emits
no done event at all (here: one stdout line then end-of-input yields
zero done events, not exactly one). Only the assistant-CLI stdout reader
of send_to_claude emits the done event; the terminal engine signals
completion through the separate exit event of the waiter thread. -/
theorem terminal_stdout_reader_no_done :
    ¬ (terminal_stdout_reader "t1" [LineRead.ok "hi"]).countP
        (fun e => e.type == EventType.done) = 1 := by
  decide

/-- C5 amended: every stream reader stops silently on a read error or
end-of-input, emitting only events of its own stream type and nothing
after the loop; the assistant-CLI stdout reader additionally emits
exactly one terminal done event (as its last event), while the terminal
stdout reader emits none. -/
theorem stream_readers_stop_silently (tid : String) (lines : List LineRead) :
    (∀ e ∈ terminal_stdout_reader tid lines, ∃ text, e = termStdout tid text)
    ∧ (terminal_stdout_reader tid lines).countP (fun e => e.type == EventType.done) = 0
    ∧ (∀ e ∈ terminal_stderr_reader tid lines, ∃ text, e = termStderr tid text)
    ∧ (claude_stdout_reader lines).countP (fun e => e.type == EventType.done) = 1
    ∧ (claude_stdout_reader lines).getLast? = some { type := .done, data := "" }
    ∧ (∀ e ∈ claude_stderr_reader lines,
        ∃ text, e = ({ type := .stderr, data := text } : ClaudeEvent)) := by
  refine ⟨?_, ?_, ?_, ?_, ?_, ?_⟩
  · intro e he
    rw [terminal_stdout_reader_eq] at he
    obtain ⟨text, _, rfl⟩ := List.mem_map.mp he
    exact ⟨text, rfl⟩
  · rw [terminal_stdout_reader_eq]
    simp [List.countP_map, Function.comp, termStdout]
  · intro e he
    rw [terminal_stderr_reader_eq] at he
    obtain ⟨text, _, rfl⟩ := List.mem_map.mp he
    exact ⟨text, rfl⟩
  · unfold claude_stdout_reader
    rw [List.countP_append, claude_stdout_loop_eq]
    simp [List.countP_map, Function.comp, List.countP_cons]
  · exact List.getLast?_concat _
  · intro e he
    rw [claude_stderr_reader_eq] at he
    obtain ⟨text, _, rfl⟩ := List.mem_map.mp he
    exact ⟨text, rfl⟩

/-- C5 witness at a concrete line sequence: one decoded line then a read
error. -/
theorem stream_readers_stop_silently_witness :
    (terminal_stdout_reader "t1" [LineRead.ok "a", LineRead.err]).countP
        (fun e => e.type == EventType.done) = 0
    ∧ (claude_stdout_reader [LineRead.ok "a", LineRead.err]).countP
        (fun e => e.type == EventType.done) = 1
    ∧ ∃ text, termStdout "t1" "a" = termStdout "t1" text :=
  ⟨(stream_readers_stop_silently "t1" [LineRead.ok "a", LineRead.err]).2.1,
   (stream_readers_stop_silently "t1" [LineRead.ok "a", LineRead.err]).2.2.2.1,
   (stream_readers_stop_silently "t1" [LineRead.ok "a", LineRead.err]).1
     (termStdout "t1" "a") (by decide)⟩

/-! ## C2 -/

/-- C2: handling a redirect consumes the pending flow stored under the
received state token the instant it arrives (the token is no longer in
the map afterwards); a redirect whose state matches no pending flow
dispatches no token exchange and is reported as the invalid-state
failure; a second redirect with the same state token therefore also
fails, so a state token triggers at most one exchange attempt; and any
dispatched exchange uses the provider and verifier of a flow that was
pending under that token. -/
theorem oauth_redirect_single_use (flows : Flows)
    (provider code state_param provider2 code2 : String) :
    lookupKey (handleRedirect flows provider code state_param).1 state_param = none
    ∧ (lookupKey flows state_param = none →
        (handleRedirect flows provider code state_param).2
          = .failure provider "Invalid OAuth state parameter")
    ∧ (handleRedirect (handleRedirect flows provider code state_param).1
        provider2 code2 state_param).2
          = .failure provider2 "Invalid OAuth state parameter"
    ∧ ∀ p c v, (handleRedirect flows provider code state_param).2 = .exchange p c v →
        ∃ flow, lookupKey flows state_param = some flow
          ∧ p = flow.provider ∧ c = code ∧ v = flow.code_verifier := by
  have hfst : (handleRedirect flows provider code state_param).1
      = eraseKey flows state_param := by
    unfold handleRedirect
    cases lookupKey flows state_param <;> rfl
  have herase : lookupKey (eraseKey flows state_param) state_param = none :=
    lookupKey_eraseKey_self flows state_param
  refine ⟨hfst ▸ herase, ?_, ?_, ?_⟩
  · intro h
    unfold handleRedirect
    rw [h]
  · rw [hfst]
    unfold handleRedirect
    rw [herase]
  · intro p c v hx
    unfold handleRedirect at hx
    cases h : lookupKey flows state_param with
    | none =>
        rw [h] at hx
        simp at hx
    | some flow =>
        rw [h] at hx
        simp only [CallbackOutcome.exchange.injEq] at hx
        exact ⟨flow, rfl, hx.1.symm, hx.2.1.symm, hx.2.2.symm⟩

/-- C2 witness: an unmatched redirect on an empty flow map fails, and a
second redirect reusing the state token of an already consumed flow
fails. -/
theorem oauth_redirect_single_use_witness :
    (handleRedirect [] "github" "c" "st").2
        = .failure "github" "Invalid OAuth state parameter"
    ∧ (handleRedirect
        (handleRedirect [("st", { provider := "github", state := "st", code_verifier := "ver" })]
          "github" "c" "st").1 "github" "c2" "st").2
        = .failure "github" "Invalid OAuth state parameter" :=
  ⟨(oauth_redirect_single_use [] "github" "c" "st" "x" "y").2.1 rfl,
   (oauth_redirect_single_use
      [("st", { provider := "github", state := "st", code_verifier := "ver" })]
      "github" "c" "st" "github" "c2").2.2.1⟩

/-! ## C6 -/

/-- C6: oauth_start with an unsupported provider, or with the provider
client-id environment variable unset, returns synchronously with
success false and a descriptive error (the missing-variable message
contains the variable name verbatim), records no pending flow, starts
no listener and opens no browser. -/
theorem oauth_start_rejections (env : String → Option String) (flows : Flows)
    (provider state_param verifier : String) :
    (get_provider_config provider = none →
      oauth_start env flows provider state_param verifier =
        { result := { success := false
                      error := some ("Unknown provider: " ++ provider)
                      content := none }
          flows := flows
          actions := [] })
    ∧ (∀ config, get_provider_config provider = some config →
        env config.client_id_env = none →
        oauth_start env flows provider state_param verifier =
          { result := { success := false
                        error := some ("Set " ++ config.client_id_env
                          ++ " environment variable with your OAuth client ID")
                        content := none }
            flows := flows
            actions := [] }) := by
  constructor
  · intro h
    simp only [oauth_start, h]
  · intro config hc he
    simp only [oauth_start, hc, he]

/-- C6 witness: with no environment variables set, starting the github
flow is rejected with a message naming DRODE_GITHUB_CLIENT_ID, and
starting an unknown provider is rejected with the unknown-provider
message; in both cases the flow map stays empty and no action runs. -/
theorem oauth_start_rejections_witness :
    oauth_start (fun _ => none) [] "github" "st" "ver" =
      { result := { success := false
                    error := some ("Set " ++ "DRODE_GITHUB_CLIENT_ID"
                      ++ " environment variable with your OAuth client ID")
                    content := none }
        flows := []
        actions := [] }
    ∧ oauth_start (fun _ => none) [] "gitlab" "st" "ver" =
      { result := { success := false
                    error := some ("Unknown provider: " ++ "gitlab")
                    content := none }
        flows := []
        actions := [] } :=
  ⟨(oauth_start_rejections (fun _ => none) [] "github" "st" "ver").2
      { auth_url := "https://github.com/login/oauth/authorize"
        token_url := "https://github.com/login/oauth/access_token"
        scopes := "repo,user"
        client_id_env := "DRODE_GITHUB_CLIENT_ID" } (by decide) rfl,
   (oauth_start_rejections (fun _ => none) [] "gitlab" "st" "ver").1 (by decide)⟩


/-! ## C3 -/

/-- C3: after a successful HTTP token-exchange call, an empty or missing
access_token makes the exchange a failure: the failure notification is
emitted, nothing is persisted and the token table, in particular any
previous record for the provider, is byte-for-byte unchanged; the table
changes only when a non-empty access token is present, and then the
record stored under the provider key carries that token and the success
notification is emitted. -/
theorem empty_access_token_not_stored (db : TokenDb) (provider : String)
    (body : TokenResponse) (now nowMs : Int) (account_info : Option String) :
    (body.access_token.getD "" = "" →
      (exchange_code_response db provider body now nowMs account_info).1 = db
      ∧ (exchange_code_response db provider body now nowMs account_info).2
          = .failure provider "No access_token in response")
    ∧ ((exchange_code_response db provider body now nowMs account_info).1 ≠ db →
        ∃ s, body.access_token = some s ∧ s ≠ "")
    ∧ (∀ s, body.access_token = some s → s ≠ "" →
        lookupKey (exchange_code_response db provider body now nowMs account_info).1 provider
          = some { provider := provider
                   access_token := s
                   refresh_token := body.refresh_token
                   expires_at := body.expires_in.map (fun e => now + e)
                   scope := body.scope
                   account_info_json := account_info
                   updated_at := nowMs }
        ∧ (exchange_code_response db provider body now nowMs account_info).2
            = .success provider account_info) := by
  refine ⟨?_, ?_, ?_⟩
  · intro h
    constructor <;> simp [exchange_code_response, h]
  · intro hne
    cases ha : body.access_token with
    | none =>
        exfalso
        apply hne
        simp [exchange_code_response, ha]
    | some s =>
        by_cases hs : s = ""
        · exfalso
          apply hne
          simp [exchange_code_response, ha, hs]
        · exact ⟨s, rfl, hs⟩
  · intro s hs hne
    constructor <;>
      simp [exchange_code_response, hs, hne, store_token, lookupKey_insertKey_self]

/-- C3 witness: a response whose access_token is the empty string, run
against a table already holding a github record, emits the failure
notification and leaves that record untouched. -/
theorem empty_access_token_not_stored_witness :
    (exchange_code_response
        [("github", { provider := "github", access_token := "old", refresh_token := none,
                      expires_at := none, scope := none, account_info_json := none,
                      updated_at := 0 })]
        "github"
        { access_token := some "", refresh_token := none, expires_in := none, scope := none }
        0 0 none).1
      = [("github", { provider := "github", access_token := "old", refresh_token := none,
                      expires_at := none, scope := none, account_info_json := none,
                      updated_at := 0 })]
    ∧ (exchange_code_response
        [("github", { provider := "github", access_token := "old", refresh_token := none,
                      expires_at := none, scope := none, account_info_json := none,
                      updated_at := 0 })]
        "github"
        { access_token := some "", refresh_token := none, expires_in := none, scope := none }
        0 0 none).2
      = .failure "github" "No access_token in response" :=
  (empty_access_token_not_stored
    [("github", { provider := "github", access_token := "old", refresh_token := none,
                  expires_at := none, scope := none, account_info_json := none,
                  updated_at := 0 })]
    "github"
    { access_token := some "", refresh_token := none, expires_in := none, scope := none }
    0 0 none).1 rfl

/-! ## C10 -/

theorem statusFor_provider {V E : Type} (get_token : String → Except E (Option OAuthToken))
    (parse : String → Option V) (p : String) :
    (statusFor get_token parse p).provider = p := by
  unfold statusFor
  rcases get_token p with e | o
  · rfl
  · cases o <;> rfl

theorem statusFor_spec {V E : Type} (get_token : String → Except E (Option OAuthToken))
    (parse : String → Option V) (p : String) :
    ((statusFor get_token parse p).connected = true →
      ∃ t, get_token p = .ok (some t)
        ∧ (statusFor get_token parse p).account_info = t.account_info_json.bind parse)
    ∧ ((statusFor get_token parse p).connected = false →
      (statusFor get_token parse p).account_info = none
        ∧ ∀ t, get_token p ≠ .ok (some t)) := by
  rcases h : get_token p with e | o
  · constructor
    · intro hc
      simp [statusFor, h] at hc
    · intro _
      constructor
      · simp [statusFor, h]
      · intro t
        simp
  · cases o with
    | none =>
        constructor
        · intro hc
          simp [statusFor, h] at hc
        · intro _
          constructor
          · simp [statusFor, h]
          · intro t
            simp
    | some token =>
        constructor
        · intro _
          exact ⟨token, rfl, by simp [statusFor, h]⟩
        · intro hc
          simp [statusFor, h] at hc

/-- C10: the connection-status query returns exactly three entries, one
per provider in the fixed order github, supabase, vercel; an entry is
connected with the parse of its stored account-info blob exactly when
get_token returns a stored record, and disconnected with no metadata in
every other case, including a retrieval error. -/
theorem oauth_get_status_spec {V E : Type}
    (get_token : String → Except E (Option OAuthToken)) (parse : String → Option V) :
    (oauth_get_status get_token parse).length = 3
    ∧ (oauth_get_status get_token parse).map (fun st => st.provider)
        = ["github", "supabase", "vercel"]
    ∧ ∀ st ∈ oauth_get_status get_token parse,
        (st.connected = true →
          ∃ t, get_token st.provider = .ok (some t)
            ∧ st.account_info = t.account_info_json.bind parse)
        ∧ (st.connected = false →
            st.account_info = none ∧ ∀ t, get_token st.provider ≠ .ok (some t)) := by
  refine ⟨rfl, ?_, ?_⟩
  · simp [oauth_get_status, statusFor_provider]
  · intro st hst
    simp only [oauth_get_status, List.map_cons, List.map_nil, List.mem_cons,
      List.not_mem_nil, or_false] at hst
    rcases hst with rfl | rfl | rfl
    · rw [statusFor_provider get_token parse "github"]
      exact statusFor_spec get_token parse "github"
    · rw [statusFor_provider get_token parse "supabase"]
      exact statusFor_spec get_token parse "supabase"
    · rw [statusFor_provider get_token parse "vercel"]
      exact statusFor_spec get_token parse "vercel"

/-- C10 witness: a concrete store where github has a record, supabase
retrieval errors and vercel has none; the github entry is connected with
the parsed metadata. -/
theorem oauth_get_status_spec_witness :
    (oauth_get_status
      (fun p => if p = "github" then
          Except.ok (some { provider := "github", access_token := "t", refresh_token := none,
                            expires_at := none, scope := none,
                            account_info_json := some "meta", updated_at := 0 })
        else if p = "supabase" then Except.error ()
        else Except.ok (none : Option OAuthToken))
      (fun s => some s)).length = 3
    ∧ ∃ t, (fun p => if p = "github" then
          Except.ok (some { provider := "github", access_token := "t", refresh_token := none,
                            expires_at := none, scope := none,
                            account_info_json := some "meta", updated_at := 0 })
        else if p = "supabase" then Except.error ()
        else Except.ok (none : Option OAuthToken)) "github" = Except.ok (some t)
        ∧ (some "meta" : Option String) = t.account_info_json.bind (fun s => some s) :=
  ⟨(oauth_get_status_spec
      (fun p => if p = "github" then
          Except.ok (some { provider := "github", access_token := "t", refresh_token := none,
                            expires_at := none, scope := none,
                            account_info_json := some "meta", updated_at := 0 })
        else if p = "supabase" then Except.error ()
        else Except.ok (none : Option OAuthToken))
      (fun s => some s)).1,
   ((oauth_get_status_spec
      (fun p => if p = "github" then
          Except.ok (some { provider := "github", access_token := "t", refresh_token := none,
                            expires_at := none, scope := none,
                            account_info_json := some "meta", updated_at := 0 })
        else if p = "supabase" then Except.error ()
        else Except.ok (none : Option OAuthToken))
      (fun s => some s)).2.2
      { connected := true, provider := "github", account_info := some "meta" }
      (by decide)).1 rfl⟩


/-! ## C8 -/

theorem buildClaudeArgs_eq (dangerous : Bool) (session_id : Option String) :
    buildClaudeArgs dangerous session_id =
      (if dangerous then ["--dangerously-skip-permissions"] else [])
        ++ ["--print", "--output-format", "stream-json", "--verbose"]
        ++ (match session_id with
            | some sid => if sid = "" then [] else ["--resume", sid]
            | none => []) := by
  unfold buildClaudeArgs
  cases session_id with
  | none => cases dangerous <;> simp
  | some sid => by_cases hs : sid = "" <;> cases dangerous <;> simp [hs]

theorem claudeArgs_head (dangerous : Bool) (session_id : Option String) :
    (buildClaudeArgs dangerous session_id).head? = some "--dangerously-skip-permissions"
      ↔ dangerous = true := by
  rw [buildClaudeArgs_eq]
  cases dangerous <;> simp

theorem claudeArgs_resume (dangerous : Bool) (session_id : Option String) :
    "--resume" ∈ buildClaudeArgs dangerous session_id
      ↔ ∃ sid, session_id = some sid ∧ sid ≠ "" := by
  rw [buildClaudeArgs_eq]
  cases session_id with
  | none => cases dangerous <;> simp
  | some sid =>
      by_cases hs : sid = "" <;> cases dangerous <;> simp [hs]

theorem claudeArgs_resume_tail (dangerous : Bool) (sid : String) (hs : sid ≠ "") :
    ∃ front, buildClaudeArgs dangerous (some sid) = front ++ ["--resume", sid] := by
  rw [buildClaudeArgs_eq]
  exact ⟨(if dangerous then ["--dangerously-skip-permissions"] else [])
      ++ ["--print", "--output-format", "stream-json", "--verbose"], by simp [hs]⟩

/-- C8: with no configured working directory, send_to_claude is the
user-facing rejection and nothing is spawned; with one configured, the
spawned argument vector starts with the elevated-privilege flag exactly
when the persisted dangerous_mode setting is the string true (default
off), and contains the resume flag exactly when the caller supplied a
non-empty session id, in which case the vector ends with the resume flag
followed by that id. -/
theorem send_to_claude_spec (settings : String → Option String) (message : String)
    (session_id : Option String) :
    (settings "current_project" = none →
      send_to_claude settings message session_id = .rejected "No project path set")
    ∧ (∀ proj, settings "current_project" = some proj →
        ∃ args, send_to_claude settings message session_id = .spawned args message
          ∧ (args.head? = some "--dangerously-skip-permissions"
              ↔ settings "dangerous_mode" = some "true")
          ∧ ("--resume" ∈ args ↔ ∃ sid, session_id = some sid ∧ sid ≠ "")
          ∧ (∀ sid, session_id = some sid → sid ≠ "" →
              ∃ front, args = front ++ ["--resume", sid])) := by
  constructor
  · intro h
    simp only [send_to_claude, h]
  · intro proj hp
    refine ⟨buildClaudeArgs
        (((settings "dangerous_mode").map (fun v => v == "true")).getD false) session_id,
      by simp only [send_to_claude, hp], ?_, ?_, ?_⟩
    · rw [claudeArgs_head]
      cases hs : settings "dangerous_mode" with
      | none => simp
      | some v => simp [beq_iff_eq]
    · exact claudeArgs_resume _ session_id
    · intro sid hsid hne
      subst hsid
      exact claudeArgs_resume_tail _ sid hne

/-- C8 witness: dangerous mode persisted as true, a configured project
path and a non-empty session id. -/
theorem send_to_claude_spec_witness :
    ∃ args,
      send_to_claude
        (fun k => if k = "current_project" then some "/tmp"
          else if k = "dangerous_mode" then some "true" else none)
        "hi" (some "s1") = .spawned args "hi"
      ∧ (args.head? = some "--dangerously-skip-permissions"
          ↔ (fun k => if k = "current_project" then some "/tmp"
              else if k = "dangerous_mode" then some "true" else none) "dangerous_mode"
            = some "true")
      ∧ ("--resume" ∈ args ↔ ∃ sid, (some "s1" : Option String) = some sid ∧ sid ≠ "")
      ∧ (∀ sid, (some "s1" : Option String) = some sid → sid ≠ "" →
          ∃ front, args = front ++ ["--resume", sid]) :=
  (send_to_claude_spec
    (fun k => if k = "current_project" then some "/tmp"
      else if k = "dangerous_mode" then some "true" else none)
    "hi" (some "s1")).2 "/tmp" (by decide)


/-! ## C9 -/

theorem b64c_mem (n : Nat) : b64c n ∈ b64Alphabet := by
  unfold b64c
  rcases h : b64Alphabet[n]? with _ | c
  · rw [List.getD_eq_getElem?_getD, h]
    decide
  · rw [List.getD_eq_getElem?_getD, h]
    exact List.getElem?_mem h

theorem alphaFacts : ∀ c ∈ b64Alphabet,
    utf8EncodeCharNat c = [c.toNat] ∧ isUnreserved c.toNat = true
      ∧ Char.ofNat c.toNat = c := by
  decide

theorem mem_b64Chars (l : List Nat) : ∀ c ∈ b64Chars l, c ∈ b64Alphabet := by
  induction l using b64Chars.induct with
  | case1 => simp [b64Chars]
  | case2 a => simp [b64Chars, b64c_mem]
  | case3 a b => simp [b64Chars, b64c_mem]
  | case4 a b c rest ih =>
      simp only [b64Chars, List.mem_cons]
      rintro x (rfl | rfl | rfl | rfl | hx)
      · exact b64c_mem _
      · exact b64c_mem _
      · exact b64c_mem _
      · exact b64c_mem _
      · exact ih x hx

theorem flatMap_encode_of_alphabet (cs : List Char) (h : ∀ c ∈ cs, c ∈ b64Alphabet) :
    (cs.flatMap utf8EncodeCharNat).flatMap encodeByte = cs := by
  induction cs with
  | nil => rfl
  | cons c rest ih =>
    obtain ⟨h1, h2, h3⟩ := alphaFacts c (h c (List.mem_cons_self c rest))
    simp only [List.flatMap_cons, List.flatMap_append, h1]
    simp [encodeByte, h2, h3, ih (fun x hx => h x (List.mem_cons_of_mem c hx))]

/-- Characters produced by the base64url encoder are all in the
percent-encoding unreserved set, so embedding the challenge in the
authorize URL through urlencoding leaves it verbatim. -/
theorem urlencode_base64 (l : List Nat) :
    urlencode (base64UrlNoPad l) = base64UrlNoPad l := by
  unfold urlencode base64UrlNoPad utf8Bytes
  exact congrArg String.mk (flatMap_encode_of_alphabet (b64Chars l) (mem_b64Chars l))

/-- C9: an accepted oauth_start opens the browser on the authorize URL
whose embedded code_challenge is the base64url no-pad encoding of the
SHA-256 digest of the generated verifier (percent-encoding leaves that
challenge unchanged, so it appears in the URL verbatim); the verifier
itself is only recorded in the pending flow, and the only outbound
message carrying it is the token-exchange form, as its code_verifier
field. The authorize URL is a function of the configuration, client id,
state and challenge alone: the verifier is not among its inputs. -/
theorem pkce_challenge_correct (env : String → Option String) (flows : Flows)
    (provider state_param verifier code : String) (config : ProviderConfig)
    (client_id : String)
    (hc : get_provider_config provider = some config)
    (he : env config.client_id_env = some client_id) :
    (oauth_start env flows provider state_param verifier).actions
      = [.startListener,
         .openBrowser (buildAuthUrl config client_id state_param
           (base64UrlNoPad (sha256 (utf8Bytes verifier))))]
    ∧ lookupKey (oauth_start env flows provider state_param verifier).flows state_param
        = some { provider := provider, state := state_param, code_verifier := verifier }
    ∧ urlencode (base64UrlNoPad (sha256 (utf8Bytes verifier)))
        = base64UrlNoPad (sha256 (utf8Bytes verifier))
    ∧ ∀ secret, ("code_verifier", verifier) ∈ exchangeForm client_id code verifier secret := by
  have hstart : oauth_start env flows provider state_param verifier =
      { result := { success := true, error := none, content := none }
        flows := insertKey flows state_param
          { provider := provider, state := state_param, code_verifier := verifier }
        actions := [.startListener,
          .openBrowser (buildAuthUrl config client_id state_param
            (base64UrlNoPad (sha256 (utf8Bytes verifier))))] } := by
    simp only [oauth_start, hc, he, generate_pkce]
  refine ⟨by rw [hstart], ?_, urlencode_base64 _, ?_⟩
  · rw [hstart]
    exact lookupKey_insertKey_self flows state_param _
  · intro secret
    unfold exchangeForm
    by_cases hs : secret = "" <;> simp [hs]

/-- C9 witness: the github flow with the verifier test; the challenge
equals the published SHA-256 test vector of the string test, base64url
encoded without padding. -/
theorem pkce_challenge_correct_witness :
    ((oauth_start (fun k => if k = "DRODE_GITHUB_CLIENT_ID" then some "cid" else none)
        [] "github" "st" "test").actions
      = [.startListener,
         .openBrowser (buildAuthUrl
           { auth_url := "https://github.com/login/oauth/authorize"
             token_url := "https://github.com/login/oauth/access_token"
             scopes := "repo,user"
             client_id_env := "DRODE_GITHUB_CLIENT_ID" } "cid" "st"
           (base64UrlNoPad (sha256 (utf8Bytes "test"))))]
    ∧ lookupKey (oauth_start
          (fun k => if k = "DRODE_GITHUB_CLIENT_ID" then some "cid" else none)
          [] "github" "st" "test").flows "st"
        = some { provider := "github", state := "st", code_verifier := "test" }
    ∧ urlencode (base64UrlNoPad (sha256 (utf8Bytes "test")))
        = base64UrlNoPad (sha256 (utf8Bytes "test"))
    ∧ ∀ secret, ("code_verifier", "test") ∈ exchangeForm "cid" "c" "test" secret)
    ∧ base64UrlNoPad (sha256 (utf8Bytes "test"))
        = "n4bQgYhMfWWaL-qgxVrQFaO_TxsrC4Is0V1sFbDwCgg" :=
  ⟨pkce_challenge_correct
      (fun k => if k = "DRODE_GITHUB_CLIENT_ID" then some "cid" else none)
      [] "github" "st" "test" "c"
      { auth_url := "https://github.com/login/oauth/authorize"
        token_url := "https://github.com/login/oauth/access_token"
        scopes := "repo,user"
        client_id_env := "DRODE_GITHUB_CLIENT_ID" } "cid" (by decide) (by decide),
   by decide⟩

end Drode
